import Mathlib

/-!
# Verification of the GNN counterfactual generator

A shallow embedding of `src/Generators/GnnGenerator.py` from the
GNN-Counterfactual-Editor repository, together with a model (from the
specification) of the beam-search editor core that the generator drives.
Sentences are strings; a table is a list of rows of (column, value) pairs;
the filesystem is a map from paths to contents.  The GNN scorer and the
classifier are frozen external models; they are embedded as data carrying
their scoring functions.
-/

/-- Split a character list at spaces, accumulating the current word
reversed (structural recursion so the kernel can evaluate it). -/
def splitWordsAux : List Char → List Char → List String
  | [], acc => [String.mk acc.reverse]
  | c :: cs, acc =>
      if c = ' ' then String.mk acc.reverse :: splitWordsAux cs []
      else splitWordsAux cs (c :: acc)

/-- Tokenization of a sentence into words (split at each space, as Python's
`split(" ")`). -/
def tokenize (s : String) : List String := splitWordsAux s.toList []

/-- Reassemble tokens into a sentence, joined by single spaces. -/
def detokenize : List String → String
  | [] => ""
  | [w] => w
  | w :: ws => w ++ " " ++ detokenize ws

/-- Modelled from the spec: the pretrained GNN model (`GLAN_Model/GNBlock.py`
is not under `src/`).  It is constructed with the architecture parameters used
at `GnnGenerator.__init__` (`layer_num=5, edge_dim=16, node_dim=8`), carries
the loaded state dict as the induced edge-scoring function (a frozen forward
pass over edge features), the eval-mode flag set by `.eval()` and the device
flag set by `.cuda()`. -/
structure GnnModel where
  layer_num : Nat
  edge_dim : Nat
  node_dim : Nat
  score : List Int → Int
  evalMode : Bool
  onCuda : Bool

/-- Modelled from the spec: the frozen sequence classifier
(`DistilBertForSequenceClassification` is an external collaborator).  It
exposes per-label scores for a sentence; the predicted label is the
argmax, deterministic given frozen weights. -/
structure Predictor where
  probs : String → List Int

/-- First index of the maximum value in a list of label scores
(deterministic argmax: earlier index wins ties). -/
def argmaxAux : List Int → Nat → Nat → Int → Nat
  | [], _, bi, _ => bi
  | x :: xs, i, bi, bv =>
      if x > bv then argmaxAux xs (i + 1) i x else argmaxAux xs (i + 1) bi bv

/-- Modelled from the spec: `predict(sentence) -> label` of the Classifier
Oracle, as the argmax over the classifier per-label scores. -/
def predictLabel (p : Predictor) (s : String) : Nat :=
  match p.probs s with
  | [] => 0
  | x :: xs => argmaxAux xs 1 0 x

/-- Modelled from the spec: the contrastive probability — the confidence
margin between the original predicted label and the next most likely label. -/
def contrastiveProb (p : Predictor) (origLabel : Nat) (s : String) : Int :=
  let ps := p.probs s
  let others := (ps.enum.filter (fun iv => iv.1 ≠ origLabel)).map (fun iv => iv.2)
  match others with
  | [] => ps.getD origLabel 0
  | x :: xs => ps.getD origLabel 0 - xs.foldl max x

/-- Modelled from the spec: the read-only lexical resource behind the Lexical
Substitution Provider (WordNet via `Editors/GnnEditor.py`, not under `src/`):
a POS tagger and a candidate-substitute query
`get_candidates(word, pos_tag, relation)`. -/
structure LexRes where
  posTag : String → String
  candidates : String → Option String → Bool → List String

/-- A Substitution Edge of the bipartite graph: one position node connected to
one candidate node, carrying the original word, the POS-match flag, the
relation used (antonyms or synonyms) and the GNN-assigned score. -/
structure SubEdge where
  pos : Nat
  orig : String
  cand : String
  posMatch : Bool
  rel : Bool
  score : Int
deriving DecidableEq

/-- Modelled from the spec: `build_graph(sentence, pos_filter, relation)` —
for each token (optionally restricted to tokens matching the POS filter) the
Lexical Substitution Provider is queried and one Substitution Edge per
returned substitute is created; with `edge_filter` enabled, edges whose
candidate POS does not match the position POS are excluded at construction
time.  Scores are attached later by the GNN. -/
def buildGraph (lex : LexRes) (posFilter : Option String) (ant : Bool)
    (edgeFilter : Bool) (toks : List String) : List SubEdge :=
  toks.enum.flatMap (fun iw =>
    let i := iw.1
    let w := iw.2
    let eligible := match posFilter with
      | none => true
      | some pf => lex.posTag w == pf
    if eligible then
      (lex.candidates w posFilter ant).filterMap (fun c =>
        let pm := lex.posTag c == lex.posTag w
        if edgeFilter && !pm then none
        else some { pos := i, orig := w, cand := c, posMatch := pm,
                    rel := ant, score := 0 })
    else [])

/-- Modelled from the spec: `score(graph)` — a single forward pass of the
frozen GNN over the graph, producing one scalar score per edge from its
features (position, POS compatibility, relation type). -/
def scoreGraph (m : GnnModel) (edges : List SubEdge) : List SubEdge :=
  edges.map (fun e =>
    { e with score := m.score [Int.ofNat e.pos, if e.posMatch then 1 else 0,
                               if e.rel then 1 else 0] })

/-- The beam width of the search (fixed positive integer for the lifetime of
one sentence's search; the spec scenario uses width 3). -/
def beamWidth : Nat := 3

/-- The fixed edit-count budget used when adaptive thresholding is off
(the spec scenario uses budget 2). -/
def defaultBudget : Nat := 2

/-- Modelled from the spec: the per-sentence edit-count budget — a fixed
constant, or, when `optimal_threshold` is enabled, a value computed from the
sentence (proportional to its length, at least one) and then frozen for that
search. -/
def sentenceBudget (optTh : Bool) (toks : List String) : Nat :=
  if optTh then max 1 (toks.length / 2) else defaultBudget

/-- A Beam State: the edits applied on this search path and the cumulative
GNN score. -/
structure BeamState where
  edits : List SubEdge
  gscore : Int
deriving DecidableEq

/-- Apply one committed edit: substitute the candidate word at its position. -/
def applyEdit (toks : List String) (e : SubEdge) : List String :=
  toks.set e.pos e.cand

/-- Apply a set of edits to a sentence, yielding a Candidate Sentence. -/
def applyEdits (es : List SubEdge) (toks : List String) : List String :=
  es.foldl applyEdit toks

/-- The beam-ranking key of a state: cumulative GNN score, or (negated)
contrastive probability of the candidate sentence when contrastive ranking is
enabled — lower margin against the original label ranks higher. -/
def stateKey (ucp : Bool) (p : Predictor) (origLabel : Nat)
    (orig : List String) (st : BeamState) : Int :=
  if ucp then -(contrastiveProb p origLabel (detokenize (applyEdits st.edits orig)))
  else st.gscore

/-- Strict ranking between beam states: higher key first, ties broken by
fewer edits; full ties keep original order (stable sort). -/
def betterState (ucp : Bool) (p : Predictor) (origLabel : Nat)
    (orig : List String) (a b : BeamState) : Bool :=
  let ka := stateKey ucp p origLabel orig a
  let kb := stateKey ucp p origLabel orig b
  decide (ka > kb) || (decide (ka = kb) && decide (a.edits.length < b.edits.length))

/-- Stable descending insertion: a state is placed after every strictly
better earlier state, preserving original order on ties. -/
def insertRanked (better : BeamState → BeamState → Bool) (s : BeamState) :
    List BeamState → List BeamState
  | [] => [s]
  | t :: ts => if better t s then t :: insertRanked better s ts else s :: t :: ts

/-- Stable descending insertion sort of beam states. -/
def rankStates (better : BeamState → BeamState → Bool) :
    List BeamState → List BeamState
  | [] => []
  | s :: ss => insertRanked better s (rankStates better ss)

/-- Modelled from the spec: the expansion step — successor states apply one
additional unapplied Substitution Edge (at a position not yet edited), capped
by the edit-count budget. -/
def expandState (edges : List SubEdge) (budget : Nat) (st : BeamState) :
    List BeamState :=
  if st.edits.length < budget then
    (edges.filter (fun e => !(st.edits.map (fun d => d.pos)).contains e.pos)).map
      (fun e => { edits := st.edits ++ [e], gscore := st.gscore + e.score })
  else []

/-- Modelled from the spec: the beam-search loop of the Edit Planner
(`Editors/GnnEditor.py` is not under `src/`).  Each round first consults the
Classifier Oracle on every beam member and succeeds with the first candidate
whose predicted label differs from the original label; otherwise it expands
every state by one edge, prunes to the beam width by the ranking criterion,
and recurses; it fails (no edit) when the budget is exhausted without a
flip. -/
def beamSearch (p : Predictor) (ucp : Bool) (origLabel : Nat)
    (orig : List String) (edges : List SubEdge) (bw budget : Nat) :
    Nat → List BeamState → Option String
  | 0, _ => none
  | fuel + 1, beam =>
    match beam.find?
        (fun st => predictLabel p (detokenize (applyEdits st.edits orig)) != origLabel) with
    | some st => some (detokenize (applyEdits st.edits orig))
    | none =>
      match beam.flatMap (expandState edges budget) with
      | [] => none
      | e :: es =>
        beamSearch p ucp origLabel orig edges bw budget fuel
          ((rankStates (betterState ucp p origLabel orig) (e :: es)).take bw)

/-- Modelled from the spec: per-sentence processing of the editor — build the
bipartite graph, score it with the frozen GNN, run beam search against the
Classifier Oracle; returns the best Candidate Sentence (or none) and the
scored edges evaluated for the Substitution Record. -/
def processOne (lex : LexRes) (m : GnnModel) (p : Predictor) (pos : Option String)
    (ant : Option Bool) (ef optTh ucp : Bool) (s : String) :
    Option String × List SubEdge :=
  let toks := tokenize s
  let edges := scoreGraph m (buildGraph lex pos (ant.getD false) ef toks)
  let budget := sentenceBudget optTh toks
  let origLabel := predictLabel p s
  (beamSearch p ucp origLabel toks edges beamWidth budget (budget + 1)
    [{ edits := [], gscore := 0 }], edges)

/-- Add one evaluated substitute to the Substitution Record entry of a word. -/
def addSub (w c : String) : List (String × List String) → List (String × List String)
  | [] => [(w, [c])]
  | kv :: rest =>
      if kv.1 = w then (kv.1, if c ∈ kv.2 then kv.2 else kv.2 ++ [c]) :: rest
      else kv :: addSub w c rest

/-- The Substitution Record: mapping from original word to the substitutes
evaluated for it, accumulated across all processed sentences. -/
def buildSubsDict (edges : List SubEdge) : List (String × List String) :=
  edges.foldl (fun d e => addSub e.orig e.cand d) []

/-- A tabular data file: column names and rows of (column, value) pairs
(the embedding of a parsed CSV). -/
structure Table where
  cols : List String
  rows : List (List (String × String))

/-- The value of a column in one row (first matching key). -/
def rowGet (r : List (String × String)) (c : String) : String :=
  match r.find? (fun kv => kv.1 == c) with
  | some kv => kv.2
  | none => ""

/-- `table[[col]]`: select the one designated column of a table, as in
`pd.read_csv(src_file)[[col]]`; selecting an absent column raises (KeyError). -/
def selectCol (t : Table) (c : String) : Except String (List String) :=
  if c ∈ t.cols then Except.ok (t.rows.map (fun r => rowGet r c))
  else Except.error ("KeyError")

/-- The filesystem visible to the generator: the set of existing paths and
the contents read from them — the parsed CSV at a path, the GNN state dict
stored in a `.pth` file (as its induced scoring function), and the pretrained
classifier stored in a directory. -/
structure FileSys where
  paths : List String
  csv : String → Table
  pth : String → (List Int → Int)
  clf : String → Predictor

/-- The constructor arguments of `GnnGenerator.__init__` (all default to
`None` in the source). -/
structure Config where
  src_file : Option String := none
  col : Option String := none
  dest_file : Option String := none
  json_file : Option String := none
  pos : Option String := none
  antonyms : Option Bool := none
  gnn_model_file : Option String := none
  predictor_path : Option String := none
  edge_filter : Option Bool := none
  optimal_threshold : Option Bool := none
  use_contrastive_prob : Option Bool := none

/-- The state of a constructed `GnnGenerator` object: the fields assigned by
`__init__` (`self.sentences` … `self.subs_dict`). -/
structure GnnGenerator where
  sentences : List String
  gnn_model : GnnModel
  predictor : Predictor
  tokenizer : String
  dest_file : String
  json_file : Option String
  pos : Option String
  antonyms : Option Bool
  edge_filter : Bool
  opt_th : Bool
  use_contrastive_prob : Bool
  edits : Option (List (String × Option String))
  subs_dict : Option (List (String × List String))

/-- `torch.set_grad_enabled(False)` runs at module import (line 61 of
`GnnGenerator.py`), before any generator is constructed: gradient computation
is globally disabled for the whole run. -/
def gradEnabled : Bool := false

/-- `GnnGenerator.__init__`: validates the required references in source
order (`src_file` specified and existing, `col` specified, column present in
the CSV, `gnn_model_file` specified and existing, `predictor_path` specified
and existing); `exit(1)` after an `[ERROR]` print is embedded as
`Except.error`.  On success it reads the designated column, loads the GNN
(`Model(layer_num=5, edge_dim=16, node_dim=8)`, `load_state_dict`, `.cuda()`,
`.eval()`), loads the classifier and tokenizer, applies the `dest_file`
default and normalizes the three boolean toggles, leaving `pos` and
`antonyms` untouched; `edits` and `subs_dict` start as `None`. -/
def GnnGenerator.init (fs : FileSys) (cfg : Config) : Except String GnnGenerator :=
  match cfg.src_file with
  | none => Except.error ("src_file must be specified")
  | some src =>
    if src ∈ fs.paths then
      match cfg.col with
      | none => Except.error ("col must be specified")
      | some c =>
        match selectCol (fs.csv src) c with
        | Except.error e => Except.error e
        | Except.ok sents =>
          match cfg.gnn_model_file with
          | none => Except.error ("gnn_model_file must be specified")
          | some gm =>
            if gm ∈ fs.paths then
              match cfg.predictor_path with
              | none => Except.error ("predictor_file must be specified")
              | some pp =>
                if pp ∈ fs.paths then
                  Except.ok
                    { sentences := sents
                      gnn_model :=
                        { layer_num := 5, edge_dim := 16, node_dim := 8,
                          score := fs.pth gm, evalMode := true, onCuda := true }
                      predictor := fs.clf pp
                      tokenizer := "distilbert-base-uncased"
                      dest_file := cfg.dest_file.getD ("gnn_edits.csv")
                      json_file := cfg.json_file
                      pos := cfg.pos
                      antonyms := cfg.antonyms
                      edge_filter := cfg.edge_filter.getD false
                      opt_th := cfg.optimal_threshold.getD false
                      use_contrastive_prob := cfg.use_contrastive_prob.getD false
                      edits := none
                      subs_dict := none }
                else Except.error ("predictor path does not exist")
            else Except.error ("gnn model file does not exist")
    else Except.error ("src file does not exist")

/-- The state of the `GnnEditor` object constructed inside
`generate_counterfactuals` (`GnnEditor(data=…, gnn_model=…, predictor=…,
tokenizer=…, pos=…, antonyms=…)`). -/
structure GnnEditor where
  data : List String
  gnn_model : GnnModel
  predictor : Predictor
  tokenizer : String
  pos : Option String
  antonyms : Option Bool

/-- The `GnnEditor(...)` construction at line 134: every argument is taken
from the generator's fields unchanged. -/
def mkEditor (g : GnnGenerator) : GnnEditor :=
  { data := g.sentences, gnn_model := g.gnn_model, predictor := g.predictor,
    tokenizer := g.tokenizer, pos := g.pos, antonyms := g.antonyms }

/-- Modelled from the spec: `GnnEditor.pipeline(edge_filter, opt_th,
use_contrastive_prob)` (`Editors/GnnEditor.py` is not under `src/`) —
processes every sentence of the data independently and sequentially, returning
the edits table (original sentence paired with the best Candidate Sentence or
none) and the accumulated Substitution Record. -/
def editorPipeline (lex : LexRes) (ed : GnnEditor) (ef optTh ucp : Bool) :
    List (String × Option String) × List (String × List String) :=
  let per := ed.data.map (fun s =>
    (s, processOne lex ed.gnn_model ed.predictor ed.pos ed.antonyms ef optTh ucp s))
  (per.map (fun sr => (sr.1, sr.2.1)),
   buildSubsDict (per.flatMap (fun sr => sr.2.2)))

/-- Observable effects of a run: per-sentence processing by the editor, the
CSV write of the edits (with its index flag) and the JSON write of the
Substitution Record. -/
inductive Event where
  | processSentence (s : String)
  | writeCsv (path : String) (withIndex : Bool)
  | writeJson (path : String)
deriving DecidableEq

/-- Whether an event is a persistence of the Substitution Record. -/
def Event.isJsonWrite : Event → Bool
  | Event.writeJson _ => true
  | _ => false

/-- Whether an event is a CSV write of the edits. -/
def Event.isCsvWrite : Event → Bool
  | Event.writeCsv _ _ => true
  | _ => false

/-- Whether an event is per-sentence processing. -/
def Event.isProcess : Event → Bool
  | Event.processSentence _ => true
  | _ => false

/-- `GnnGenerator.generate_counterfactuals`: builds the editor from the
generator's fields, runs its pipeline over all sentences, stores the results
in `self.edits` and `self.subs_dict`, and returns `self`.  The returned event
list records the per-sentence processing. -/
def GnnGenerator.generate_counterfactuals (lex : LexRes) (g : GnnGenerator) :
    GnnGenerator × List Event :=
  let r := editorPipeline lex (mkEditor g) g.edge_filter g.opt_th g.use_contrastive_prob
  ({ g with edits := some r.1, subs_dict := some r.2 },
   g.sentences.map Event.processSentence)

/-- `GnnGenerator.export_to_csv`: writes `self.edits` to `self.dest_file`
with `index=False`, and, only when `json_file` was given, dumps
`self.subs_dict` to that JSON file; returns `self`. -/
def GnnGenerator.export_to_csv (g : GnnGenerator) : GnnGenerator × List Event :=
  (g, Event.writeCsv g.dest_file false ::
      (match g.json_file with
       | some p => [Event.writeJson p]
       | none => []))

/-- `GnnGenerator.pipeline`: `self.generate_counterfactuals().export_to_csv()`. -/
def GnnGenerator.pipelineRun (lex : LexRes) (g : GnnGenerator) :
    GnnGenerator × List Event :=
  let r1 := g.generate_counterfactuals lex
  let r2 := r1.1.export_to_csv
  (r2.1, r1.2 ++ r2.2)

/-- A whole batch run from a configuration: construct the generator, then run
its pipeline; a constructor error aborts with no processing. -/
def runBatch (lex : LexRes) (fs : FileSys) (cfg : Config) :
    Except String (GnnGenerator × List Event) :=
  match GnnGenerator.init fs cfg with
  | Except.error e => Except.error e
  | Except.ok g => Except.ok (g.pipelineRun lex)

/-- A concrete lexical resource for witnesses: every word tagged as an
adjective; the only substitution offered is antonym/synonym of the word
written as b-a-d, replaced by g-o-o-d. -/
def lexEx : LexRes :=
  { posTag := fun _ => "adj",
    candidates := fun w _ _ => if w = "bad" then ["good"] else [] }

/-- A concrete frozen classifier for witnesses: label 1 on the flipped
sentence, label 0 otherwise. -/
def clfEx : Predictor :=
  { probs := fun s => if s = "good" then [0, 1] else [1, 0] }

/-- A concrete frozen GNN for witnesses, with the architecture parameters of
`GnnGenerator.__init__`. -/
def modelEx : GnnModel :=
  { layer_num := 5, edge_dim := 16, node_dim := 8, score := fun _ => 1,
    evalMode := true, onCuda := true }

/-- A concrete one-column input table for witnesses. -/
def tableEx : Table := { cols := ["text"], rows := [[("text", "bad")]] }

/-- The same table with one extra, unrelated column. -/
def tableEx2 : Table :=
  { cols := ["text", "other"], rows := [[("text", "bad"), ("other", "x")]] }

/-- A concrete filesystem for witnesses: the source CSV, the GNN checkpoint
and the classifier directory all exist. -/
def fsEx : FileSys :=
  { paths := ["d.csv", "m.pth", "pred"],
    csv := fun _ => tableEx,
    pth := fun _ => fun _ => 1,
    clf := fun _ => clfEx }

/-- The witness filesystem with the two-column table instead. -/
def fsEx2 : FileSys := { fsEx with csv := fun _ => tableEx2 }

/-- A concrete configuration giving only the four required references. -/
def cfgEx : Config :=
  { src_file := some "d.csv", col := some "text",
    gnn_model_file := some "m.pth", predictor_path := some "pred" }

/-- The generator state that `GnnGenerator.init fsEx cfgEx` constructs. -/
def gInitEx : GnnGenerator :=
  { sentences := ["bad"]
    gnn_model :=
      { layer_num := 5, edge_dim := 16, node_dim := 8,
        score := fsEx.pth "m.pth", evalMode := true, onCuda := true }
    predictor := fsEx.clf "pred"
    tokenizer := "distilbert-base-uncased"
    dest_file := "gnn_edits.csv"
    json_file := none
    pos := none
    antonyms := none
    edge_filter := false
    opt_th := false
    use_contrastive_prob := false
    edits := none
    subs_dict := none }

/-- A concrete fully-populated generator state for witnesses. -/
def gEx : GnnGenerator :=
  { sentences := ["bad"], gnn_model := modelEx, predictor := clfEx,
    tokenizer := "distilbert-base-uncased", dest_file := "gnn_edits.csv",
    json_file := none, pos := none, antonyms := none, edge_filter := false,
    opt_th := false, use_contrastive_prob := false, edits := none,
    subs_dict := none }

/-- The witness generator with a JSON destination for the Substitution
Record. -/
def gJsonEx : GnnGenerator := { gEx with json_file := some "subs.json" }

/-- Any sentence returned by the beam-search loop flips the classifier label
relative to the original label, whatever the beam contents. -/
theorem beamSearch_flip (p : Predictor) (ucp : Bool) (origLabel : Nat)
    (orig : List String) (edges : List SubEdge) (bw budget : Nat) :
    ∀ (fuel : Nat) (beam : List BeamState) (c : String),
      beamSearch p ucp origLabel orig edges bw budget fuel beam = some c →
      predictLabel p c ≠ origLabel := by
  intro fuel
  induction fuel with
  | zero => intro beam c h; simp [beamSearch] at h
  | succ n ih =>
    intro beam c h
    rw [beamSearch] at h
    split at h
    · rename_i st hfind
      have hp := List.find?_some hfind
      injection h with h
      subst h
      simpa using hp
    · split at h
      · exact absurd h (by simp)
      · exact ih _ _ h

/-- Inversion of a successful construction: every required reference was
specified and existed, and the fields of the constructed generator are the
ones `__init__` assigns. -/
theorem init_ok_inv (fs : FileSys) (cfg : Config) (g : GnnGenerator)
    (h : GnnGenerator.init fs cfg = Except.ok g) :
    (∃ s, cfg.src_file = some s ∧ s ∈ fs.paths) ∧
    (∃ c, cfg.col = some c) ∧
    (∃ m, cfg.gnn_model_file = some m ∧ m ∈ fs.paths) ∧
    (∃ q, cfg.predictor_path = some q ∧ q ∈ fs.paths) ∧
    g.tokenizer = "distilbert-base-uncased" ∧
    g.dest_file = cfg.dest_file.getD ("gnn_edits.csv") ∧
    g.json_file = cfg.json_file ∧
    g.pos = cfg.pos ∧
    g.antonyms = cfg.antonyms ∧
    g.edge_filter = cfg.edge_filter.getD false ∧
    g.opt_th = cfg.optimal_threshold.getD false ∧
    g.use_contrastive_prob = cfg.use_contrastive_prob.getD false ∧
    g.gnn_model.evalMode = true ∧
    g.gnn_model.onCuda = true ∧
    g.edits = none ∧
    g.subs_dict = none := by
  unfold GnnGenerator.init at h
  repeat' split at h
  all_goals simp_all
  subst h
  simp_all

/-- C1: for every processed input sentence, a Candidate Sentence is emitted
as the final counterfactual only if the classifier's predicted label on it
differs from the classifier's prediction on the original sentence; a search
that exhausts its budget without a flip emits no edit (the `none` entry), so
every emitted edit flips the label. -/
theorem emitted_counterfactual_flips (lex : LexRes) (g : GnnGenerator)
    (orig c : String)
    (h : (orig, some c) ∈ ((g.generate_counterfactuals lex).1.edits.getD [])) :
    predictLabel g.predictor c ≠ predictLabel g.predictor orig := by
  simp only [GnnGenerator.generate_counterfactuals, editorPipeline,
    Option.getD_some, List.map_map, List.mem_map] at h
  obtain ⟨s, hs, heq⟩ := h
  simp only [Function.comp, Prod.mk.injEq] at heq
  obtain ⟨h1, h2⟩ := heq
  subst h1
  unfold processOne at h2
  exact beamSearch_flip _ _ _ _ _ _ _ _ _ _ h2

/-- Witness for C1: in the concrete run the edit emitted for the original
sentence is a Candidate Sentence on which the classifier label flips. -/
theorem emitted_counterfactual_flips_witness :
    ("bad", some "good") ∈ ((gEx.generate_counterfactuals lexEx).1.edits.getD []) ∧
    predictLabel gEx.predictor "good" ≠ predictLabel gEx.predictor "bad" :=
  ⟨by decide, emitted_counterfactual_flips lexEx gEx "bad" "good" (by decide)⟩

/-- C2: running the counterfactual planner twice with identical model
weights and identical configuration (sentences, GNN, predictor, tokenizer,
pos, antonyms, edge_filter, optimal_threshold, use_contrastive_prob) yields
identical outputs — same edits (best Candidate Sentence or same failure
outcome per sentence) and same Substitution Record. -/
theorem counterfactuals_deterministic (lex : LexRes) (g1 g2 : GnnGenerator)
    (hs : g1.sentences = g2.sentences)
    (hm : g1.gnn_model = g2.gnn_model)
    (hp : g1.predictor = g2.predictor)
    (ht : g1.tokenizer = g2.tokenizer)
    (hpos : g1.pos = g2.pos)
    (ha : g1.antonyms = g2.antonyms)
    (he : g1.edge_filter = g2.edge_filter)
    (ho : g1.opt_th = g2.opt_th)
    (hu : g1.use_contrastive_prob = g2.use_contrastive_prob) :
    (g1.generate_counterfactuals lex).1.edits =
      (g2.generate_counterfactuals lex).1.edits ∧
    (g1.generate_counterfactuals lex).1.subs_dict =
      (g2.generate_counterfactuals lex).1.subs_dict := by
  have hed : mkEditor g1 = mkEditor g2 := by
    simp [mkEditor, hs, hm, hp, ht, hpos, ha]
  constructor <;>
    simp [GnnGenerator.generate_counterfactuals, hed, he, ho, hu]

/-- Witness for C2: the two runs of the concrete generator agree. -/
theorem counterfactuals_deterministic_witness :
    (gEx.generate_counterfactuals lexEx).1.edits =
      (gEx.generate_counterfactuals lexEx).1.edits ∧
    (gEx.generate_counterfactuals lexEx).1.subs_dict =
      (gEx.generate_counterfactuals lexEx).1.subs_dict :=
  counterfactuals_deterministic lexEx gEx gEx rfl rfl rfl rfl rfl rfl rfl rfl rfl

/-- A configuration in which a required reference is missing (`None`) or
names a non-existent path. -/
def badRef (fs : FileSys) (cfg : Config) : Prop :=
  cfg.src_file = none ∨ (∃ s, cfg.src_file = some s ∧ s ∉ fs.paths) ∨
  cfg.col = none ∨
  cfg.gnn_model_file = none ∨ (∃ m, cfg.gnn_model_file = some m ∧ m ∉ fs.paths) ∨
  cfg.predictor_path = none ∨ (∃ q, cfg.predictor_path = some q ∧ q ∉ fs.paths)

/-- The all-defaults (`None`s) configuration. -/
def cfgBad : Config := {}

/-- C3: a construction whose required configuration references (src_file,
col, gnn_model_file, predictor_path) are missing or name non-existent paths
fails fatally with an immediate error report, and the batch run aborts with
that error — no partial processing of the batch is attempted. -/
theorem init_fatal_on_bad_ref (lex : LexRes) (fs : FileSys) (cfg : Config)
    (hbad : badRef fs cfg) :
    ∃ msg, GnnGenerator.init fs cfg = Except.error msg ∧
      runBatch lex fs cfg = Except.error msg := by
  cases hinit : GnnGenerator.init fs cfg with
  | error e => exact ⟨e, rfl, by simp [runBatch, hinit]⟩
  | ok g =>
    exfalso
    obtain ⟨⟨s, hs, hsmem⟩, ⟨c, hc⟩, ⟨m, hm, hmmem⟩, ⟨q, hq, hqmem⟩, -⟩ :=
      init_ok_inv fs cfg g hinit
    rcases hbad with h | ⟨s2, h, hnm⟩ | h | h | ⟨m2, h, hnm⟩ | h | ⟨q2, h, hnm⟩ <;>
      simp_all

/-- Witness for C3: the empty configuration is rejected with an error and the
batch run aborts. -/
theorem init_fatal_on_bad_ref_witness :
    badRef fsEx cfgBad ∧
    ∃ msg, GnnGenerator.init fsEx cfgBad = Except.error msg ∧
      runBatch lexEx fsEx cfgBad = Except.error msg :=
  ⟨Or.inl rfl, init_fatal_on_bad_ref lexEx fsEx cfgBad (Or.inl rfl)⟩

/-- Counterexample to C4 as stated: a batch run whose configuration leaves
json_file unspecified persists the Substitution Record zero times, not
exactly once. -/
theorem subs_record_not_always_persisted :
    ¬ ((gEx.pipelineRun lexEx).2.countP Event.isJsonWrite = 1) := by decide

/-- C4 (amended): for every batch run in which a json_file is configured,
the Substitution Record is persisted exactly once, at the end of the batch
run, after all sentences have been processed (and after the edits CSV
write); with json_file unspecified it is not persisted at all. -/
theorem subs_record_persisted_once (lex : LexRes) (g : GnnGenerator)
    (p : String) (h : g.json_file = some p) :
    (g.pipelineRun lex).2 =
      g.sentences.map Event.processSentence ++
        [Event.writeCsv g.dest_file false, Event.writeJson p] ∧
    (g.pipelineRun lex).2.countP Event.isJsonWrite = 1 := by
  have he : (g.pipelineRun lex).2 =
      g.sentences.map Event.processSentence ++
        [Event.writeCsv g.dest_file false, Event.writeJson p] := by
    simp [GnnGenerator.pipelineRun, GnnGenerator.generate_counterfactuals,
      GnnGenerator.export_to_csv, h]
  refine ⟨he, ?_⟩
  rw [he]
  simp [List.countP_append, List.countP_cons, List.countP_map,
    Function.comp, Event.isJsonWrite]

/-- Witness for C4 (amended): the concrete run configured with a JSON
destination persists the Substitution Record exactly once, after the one
processed sentence and the CSV write. -/
theorem subs_record_persisted_once_witness :
    (gJsonEx.pipelineRun lexEx).2 =
      gJsonEx.sentences.map Event.processSentence ++
        [Event.writeCsv gJsonEx.dest_file false, Event.writeJson "subs.json"] ∧
    (gJsonEx.pipelineRun lexEx).2.countP Event.isJsonWrite = 1 :=
  subs_record_persisted_once lexEx gJsonEx "subs.json" rfl

/-- A configuration with the four required references set and an arbitrary
combination of the optional settings. -/
def mkToggleCfg (src c gm pp : String) (dest json pos : Option String)
    (ant ef ot ucp : Option Bool) : Config :=
  { src_file := some src, col := some c, dest_file := dest, json_file := json,
    pos := pos, antonyms := ant, gnn_model_file := some gm,
    predictor_path := some pp, edge_filter := ef, optimal_threshold := ot,
    use_contrastive_prob := ucp }

/-- C5: every combination of the orthogonal configuration settings consumed
by the core — pos (optional), antonyms (synonym/antonym selector),
edge_filter, optimal_threshold and use_contrastive_prob — is accepted as
valid input: with the required references valid, construction succeeds and
the pipeline runs, whatever the toggle values. -/
theorem all_toggle_combinations_accepted (lex : LexRes) (fs : FileSys)
    (src c gm pp : String) (dest json pos : Option String)
    (ant ef ot ucp : Option Bool)
    (hsrc : src ∈ fs.paths) (hgm : gm ∈ fs.paths) (hpp : pp ∈ fs.paths)
    (hcol : c ∈ (fs.csv src).cols) :
    (∃ g, GnnGenerator.init fs (mkToggleCfg src c gm pp dest json pos ant ef ot ucp) =
        Except.ok g) ∧
    (∃ out, runBatch lex fs (mkToggleCfg src c gm pp dest json pos ant ef ot ucp) =
        Except.ok out) := by
  constructor
  · exact ⟨_, by
      simp [GnnGenerator.init, mkToggleCfg, selectCol, hsrc, hgm, hpp, hcol]
      rfl⟩
  · exact ⟨_, by
      simp [runBatch, GnnGenerator.init, mkToggleCfg, selectCol, hsrc, hgm, hpp, hcol]
      rfl⟩

/-- Witness for C5: a fully-populated toggle combination is accepted on the
concrete filesystem and the batch run completes. -/
theorem all_toggle_combinations_accepted_witness :
    (∃ g, GnnGenerator.init fsEx
        (mkToggleCfg "d.csv" "text" "m.pth" "pred" (some "out.csv")
          (some "subs.json") (some "adj") (some true) (some true) (some true)
          (some true)) = Except.ok g) ∧
    (∃ out, runBatch lexEx fsEx
        (mkToggleCfg "d.csv" "text" "m.pth" "pred" (some "out.csv")
          (some "subs.json") (some "adj") (some true) (some true) (some true)
          (some true)) = Except.ok out) :=
  all_toggle_combinations_accepted lexEx fsEx "d.csv" "text" "m.pth" "pred"
    (some "out.csv") (some "subs.json") (some "adj") (some true) (some true)
    (some true) (some true) (by decide) (by decide) (by decide) (by decide)

/-- C6: the GNN model is used strictly for inference: gradient computation
is globally disabled at module import (before any scoring), the model is put
in eval mode at construction, and the GNN (its parameters included) is
unchanged by the whole pipeline run. -/
theorem gnn_inference_only (lex : LexRes) (fs : FileSys) (cfg : Config)
    (g : GnnGenerator) (h : GnnGenerator.init fs cfg = Except.ok g) :
    gradEnabled = false ∧ g.gnn_model.evalMode = true ∧
    (g.pipelineRun lex).1.gnn_model = g.gnn_model := by
  obtain ⟨-, -, -, -, -, -, -, -, -, -, -, -, hev, -⟩ := init_ok_inv fs cfg g h
  exact ⟨rfl, hev, rfl⟩

/-- Witness for C6 at the concrete construction. -/
theorem gnn_inference_only_witness :
    gradEnabled = false ∧ gInitEx.gnn_model.evalMode = true ∧
    (gInitEx.pipelineRun lexEx).1.gnn_model = gInitEx.gnn_model :=
  gnn_inference_only lexEx fsEx cfgEx gInitEx rfl

/-- C7: the generator's working data is exactly the one designated text
column of the input table: two filesystems that agree everywhere except the
other columns of the CSV (same designated-column content) give identical
constructions, hence identical batch outputs — no other column of the input
influences processing. -/
theorem only_designated_column_used (fs fs2 : FileSys) (cfg : Config)
    (src c : String)
    (hsrc : cfg.src_file = some src) (hcol : cfg.col = some c)
    (hpaths : fs.paths = fs2.paths) (hpth : fs.pth = fs2.pth)
    (hclf : fs.clf = fs2.clf)
    (hsel : selectCol (fs.csv src) c = selectCol (fs2.csv src) c) :
    GnnGenerator.init fs cfg = GnnGenerator.init fs2 cfg ∧
    ∀ lex, runBatch lex fs cfg = runBatch lex fs2 cfg := by
  have hinit : GnnGenerator.init fs cfg = GnnGenerator.init fs2 cfg := by
    unfold GnnGenerator.init
    rw [hsrc, hcol, hpaths, hpth, hclf]
    simp only [hsel]
  exact ⟨hinit, fun lex => by simp [runBatch, hinit]⟩

/-- Witness for C7: adding an unrelated column to the concrete table changes
nothing in the construction or the batch run. -/
theorem only_designated_column_used_witness :
    GnnGenerator.init fsEx cfgEx = GnnGenerator.init fsEx2 cfgEx ∧
    ∀ lex, runBatch lex fsEx cfgEx = runBatch lex fsEx2 cfgEx :=
  only_designated_column_used fsEx fsEx2 cfgEx "d.csv" "text" rfl rfl rfl rfl
    rfl rfl

/-- C8: with dest_file unspecified the edits CSV path is gnn_edits.csv, with
dest_file given it is exactly that path; and the single CSV write of the run
carries `index=False` (no row-index column). -/
theorem dest_file_policy (lex : LexRes) (fs : FileSys) (cfg : Config)
    (g : GnnGenerator) (h : GnnGenerator.init fs cfg = Except.ok g) :
    g.dest_file = cfg.dest_file.getD ("gnn_edits.csv") ∧
    (g.pipelineRun lex).2.countP Event.isCsvWrite = 1 ∧
    Event.writeCsv (cfg.dest_file.getD ("gnn_edits.csv")) false ∈
      (g.pipelineRun lex).2 := by
  obtain ⟨-, -, -, -, -, hdest, -⟩ := init_ok_inv fs cfg g h
  refine ⟨hdest, ?_, ?_⟩ <;>
    cases hj : g.json_file <;>
      simp [GnnGenerator.pipelineRun, GnnGenerator.generate_counterfactuals,
        GnnGenerator.export_to_csv, hj, hdest, List.countP_append,
        List.countP_cons, List.countP_map, Function.comp, Event.isCsvWrite]

/-- Witness for C8 at the concrete construction (dest_file unspecified). -/
theorem dest_file_policy_witness :
    gInitEx.dest_file = cfgEx.dest_file.getD ("gnn_edits.csv") ∧
    (gInitEx.pipelineRun lexEx).2.countP Event.isCsvWrite = 1 ∧
    Event.writeCsv (cfgEx.dest_file.getD ("gnn_edits.csv")) false ∈
      (gInitEx.pipelineRun lexEx).2 :=
  dest_file_policy lexEx fsEx cfgEx gInitEx rfl

/-- C9: the toggles edge_filter, optimal_threshold and use_contrastive_prob
are normalized so that `None` becomes `False` before use, whereas pos and
antonyms are forwarded to the editor unchanged — an unspecified antonyms
stays `None` when handed to `GnnEditor`. -/
theorem toggle_normalization (fs : FileSys) (cfg : Config) (g : GnnGenerator)
    (h : GnnGenerator.init fs cfg = Except.ok g) :
    g.edge_filter = cfg.edge_filter.getD false ∧
    g.opt_th = cfg.optimal_threshold.getD false ∧
    g.use_contrastive_prob = cfg.use_contrastive_prob.getD false ∧
    g.pos = cfg.pos ∧ g.antonyms = cfg.antonyms ∧
    (mkEditor g).pos = cfg.pos ∧ (mkEditor g).antonyms = cfg.antonyms := by
  obtain ⟨-, -, -, -, -, -, -, hpos, hant, hef, hot, hucp, -⟩ :=
    init_ok_inv fs cfg g h
  exact ⟨hef, hot, hucp, hpos, hant, hpos, hant⟩

/-- Witness for C9 at the concrete construction, where antonyms is `None`
and stays `None` in the editor. -/
theorem toggle_normalization_witness :
    gInitEx.edge_filter = cfgEx.edge_filter.getD false ∧
    gInitEx.opt_th = cfgEx.optimal_threshold.getD false ∧
    gInitEx.use_contrastive_prob = cfgEx.use_contrastive_prob.getD false ∧
    gInitEx.pos = cfgEx.pos ∧ gInitEx.antonyms = cfgEx.antonyms ∧
    (mkEditor gInitEx).pos = cfgEx.pos ∧
    (mkEditor gInitEx).antonyms = cfgEx.antonyms :=
  toggle_normalization fsEx cfgEx gInitEx rfl

/-- C10: generate_counterfactuals only assigns edits and subs_dict (to the
editor pipeline's two results) and returns the generator itself: every
configuration field is unchanged by the call. -/
theorem generate_counterfactuals_frame (lex : LexRes) (g : GnnGenerator) :
    ((g.generate_counterfactuals lex).1.sentences = g.sentences) ∧
    ((g.generate_counterfactuals lex).1.gnn_model = g.gnn_model) ∧
    ((g.generate_counterfactuals lex).1.predictor = g.predictor) ∧
    ((g.generate_counterfactuals lex).1.tokenizer = g.tokenizer) ∧
    ((g.generate_counterfactuals lex).1.dest_file = g.dest_file) ∧
    ((g.generate_counterfactuals lex).1.json_file = g.json_file) ∧
    ((g.generate_counterfactuals lex).1.pos = g.pos) ∧
    ((g.generate_counterfactuals lex).1.antonyms = g.antonyms) ∧
    ((g.generate_counterfactuals lex).1.edge_filter = g.edge_filter) ∧
    ((g.generate_counterfactuals lex).1.opt_th = g.opt_th) ∧
    ((g.generate_counterfactuals lex).1.use_contrastive_prob =
      g.use_contrastive_prob) ∧
    ((g.generate_counterfactuals lex).1.edits =
      some (editorPipeline lex (mkEditor g) g.edge_filter g.opt_th
        g.use_contrastive_prob).1) ∧
    ((g.generate_counterfactuals lex).1.subs_dict =
      some (editorPipeline lex (mkEditor g) g.edge_filter g.opt_th
        g.use_contrastive_prob).2) :=
  ⟨rfl, rfl, rfl, rfl, rfl, rfl, rfl, rfl, rfl, rfl, rfl, rfl, rfl⟩
